import Mathlib

/-!
Verification of the Unit-Converter-Hub conversion engine.

The development shallowly embeds `src/utils/conversionUtils.js` and
`src/models/unitCategories.js`. JavaScript numbers are modelled as exact
rationals extended with the special values NaN, Infinity and -Infinity
(`JSNum`); arithmetic on finite values is exact rational arithmetic, which
idealises binary floating point but keeps every control-flow decision and
every algebraic formula of the source. Signed zero is not distinguished.
Fallible helpers (`convertTemperature`, `convertWithFactors`) return
`Except String JSNum`, mirroring the thrown `Error` objects of the source;
the top-level `convert` pattern-matches on the `Except`, mirroring its
`try/catch`. The timestamp produced by `new Date().toISOString()` is
modelled by an explicit `now : String` parameter.
-/

namespace UnitConverterHub

/-- Model of a JavaScript number: a finite (exact) rational, or one of the
special values NaN, Infinity, -Infinity. -/
inductive JSNum where
  | fin (q : ℚ)
  | nan
  | inf
  | neginf
deriving DecidableEq, Repr

/-- JavaScript addition on numbers (IEEE-754 special-value rules; finite
arithmetic idealised as exact). -/
def jsAdd : JSNum → JSNum → JSNum
  | JSNum.fin a, JSNum.fin b => JSNum.fin (a + b)
  | JSNum.nan, _ => JSNum.nan
  | _, JSNum.nan => JSNum.nan
  | JSNum.inf, JSNum.neginf => JSNum.nan
  | JSNum.neginf, JSNum.inf => JSNum.nan
  | JSNum.inf, _ => JSNum.inf
  | _, JSNum.inf => JSNum.inf
  | JSNum.neginf, _ => JSNum.neginf
  | _, JSNum.neginf => JSNum.neginf

/-- JavaScript subtraction on numbers. -/
def jsSub : JSNum → JSNum → JSNum
  | JSNum.fin a, JSNum.fin b => JSNum.fin (a - b)
  | JSNum.nan, _ => JSNum.nan
  | _, JSNum.nan => JSNum.nan
  | JSNum.inf, JSNum.inf => JSNum.nan
  | JSNum.neginf, JSNum.neginf => JSNum.nan
  | JSNum.inf, _ => JSNum.inf
  | JSNum.neginf, _ => JSNum.neginf
  | _, JSNum.inf => JSNum.neginf
  | _, JSNum.neginf => JSNum.inf

/-- JavaScript multiplication on numbers. -/
def jsMul : JSNum → JSNum → JSNum
  | JSNum.fin a, JSNum.fin b => JSNum.fin (a * b)
  | JSNum.nan, _ => JSNum.nan
  | _, JSNum.nan => JSNum.nan
  | JSNum.inf, JSNum.inf => JSNum.inf
  | JSNum.inf, JSNum.neginf => JSNum.neginf
  | JSNum.neginf, JSNum.inf => JSNum.neginf
  | JSNum.neginf, JSNum.neginf => JSNum.inf
  | JSNum.inf, JSNum.fin b => if 0 < b then JSNum.inf else if b < 0 then JSNum.neginf else JSNum.nan
  | JSNum.fin a, JSNum.inf => if 0 < a then JSNum.inf else if a < 0 then JSNum.neginf else JSNum.nan
  | JSNum.neginf, JSNum.fin b => if 0 < b then JSNum.neginf else if b < 0 then JSNum.inf else JSNum.nan
  | JSNum.fin a, JSNum.neginf => if 0 < a then JSNum.neginf else if a < 0 then JSNum.inf else JSNum.nan

/-- JavaScript division on numbers (division by zero yields a signed
infinity or NaN; signed zero is not distinguished). -/
def jsDiv : JSNum → JSNum → JSNum
  | JSNum.fin a, JSNum.fin b =>
      if b = 0 then (if a = 0 then JSNum.nan else if 0 < a then JSNum.inf else JSNum.neginf)
      else JSNum.fin (a / b)
  | JSNum.nan, _ => JSNum.nan
  | _, JSNum.nan => JSNum.nan
  | JSNum.inf, JSNum.inf => JSNum.nan
  | JSNum.inf, JSNum.neginf => JSNum.nan
  | JSNum.neginf, JSNum.inf => JSNum.nan
  | JSNum.neginf, JSNum.neginf => JSNum.nan
  | JSNum.inf, JSNum.fin b => if b < 0 then JSNum.neginf else JSNum.inf
  | JSNum.neginf, JSNum.fin b => if b < 0 then JSNum.inf else JSNum.neginf
  | JSNum.fin _, JSNum.inf => JSNum.fin 0
  | JSNum.fin _, JSNum.neginf => JSNum.fin 0

/-- JavaScript `Math.round`: nearest integer, half-way cases toward +∞. -/
def jsRound : JSNum → JSNum
  | JSNum.fin q => JSNum.fin ((⌊q + 1 / 2⌋ : ℤ) : ℚ)
  | JSNum.nan => JSNum.nan
  | JSNum.inf => JSNum.inf
  | JSNum.neginf => JSNum.neginf

/-- Model of an arbitrary JavaScript value passed as an argument to the
engine: a number, a string, a boolean, null, undefined, or any other
object. -/
inductive JSValue where
  | num (n : JSNum)
  | str (s : String)
  | boolean (b : Bool)
  | nullv
  | undef
  | obj
deriving DecidableEq, Repr

/-- `typeof value === number` for a `JSValue`. -/
def jsTypeofNumber : JSValue → Bool
  | JSValue.num _ => true
  | _ => false

/-- `isNaN(value)`. In `convert` this is only evaluated after
`typeof value === number` holds (short-circuit), so the coercing
behaviour of the global `isNaN` on non-numbers is unobservable there; we
return `false` on non-numbers. -/
def jsIsNaNValue : JSValue → Bool
  | JSValue.num JSNum.nan => true
  | _ => false

/-- Extract the numeric payload of a `JSValue`; only reached in the engine
after the `typeof` guard, so the non-number fallback is unobservable. -/
def jsValueToNum : JSValue → JSNum
  | JSValue.num n => n
  | _ => JSNum.nan

/-- Display string for a `JSNum`. JavaScript decimal formatting of numbers
is not modelled (no claim depends on it); finite values print as exact
rationals. -/
def jsNumToString : JSNum → String
  | JSNum.fin q => toString q
  | JSNum.nan => "NaN"
  | JSNum.inf => "Infinity"
  | JSNum.neginf => "-Infinity"

/-- Display string for a `JSValue` (string interpolation operand). -/
def jsValueToString : JSValue → String
  | JSValue.num n => jsNumToString n
  | JSValue.str s => s
  | JSValue.boolean b => if b then "true" else "false"
  | JSValue.nullv => "null"
  | JSValue.undef => "undefined"
  | JSValue.obj => "[object Object]"

/-- One unit record of the registry (fields `name`, `symbol`, `factor`,
`category` in this order). -/
structure UnitEntry where
  name : String
  symbol : String
  factor : ℚ
  category : String
deriving DecidableEq, Repr

/-- One category record of the registry (fields `name`, `icon`,
`baseUnit`, `units` in this order). -/
structure Category where
  name : String
  icon : String
  baseUnit : String
  units : List (String × UnitEntry)
deriving DecidableEq, Repr

/-- `length` category of `unitCategories.js`. -/
def lengthCategory : Category :=
  ⟨"Length", "📏", "meter",
    [("nanometer", ⟨"Nanometer", "nm", 1e-9, "metric"⟩),
     ("micrometer", ⟨"Micrometer", "μm", 1e-6, "metric"⟩),
     ("millimeter", ⟨"Millimeter", "mm", 0.001, "metric"⟩),
     ("centimeter", ⟨"Centimeter", "cm", 0.01, "metric"⟩),
     ("meter", ⟨"Meter", "m", 1, "metric"⟩),
     ("kilometer", ⟨"Kilometer", "km", 1000, "metric"⟩),
     ("inch", ⟨"Inch", "in", 0.0254, "imperial"⟩),
     ("foot", ⟨"Foot", "ft", 0.3048, "imperial"⟩),
     ("yard", ⟨"Yard", "yd", 0.9144, "imperial"⟩),
     ("mile", ⟨"Mile", "mi", 1609.344, "imperial"⟩),
     ("nauticalMile", ⟨"Nautical Mile", "nmi", 1852, "nautical"⟩),
     ("lightYear", ⟨"Light Year", "ly", 9.461e15, "astronomical"⟩)]⟩

/-- `weight` category of `unitCategories.js`. -/
def weightCategory : Category :=
  ⟨"Weight", "⚖️", "kilogram",
    [("milligram", ⟨"Milligram", "mg", 1e-6, "metric"⟩),
     ("gram", ⟨"Gram", "g", 0.001, "metric"⟩),
     ("kilogram", ⟨"Kilogram", "kg", 1, "metric"⟩),
     ("tonne", ⟨"Tonne", "t", 1000, "metric"⟩),
     ("ounce", ⟨"Ounce", "oz", 0.0283495, "imperial"⟩),
     ("pound", ⟨"Pound", "lb", 0.453592, "imperial"⟩),
     ("stone", ⟨"Stone", "st", 6.35029, "imperial"⟩),
     ("ton", ⟨"Ton (US)", "ton", 907.185, "imperial"⟩)]⟩

/-- `volume` category of `unitCategories.js`. -/
def volumeCategory : Category :=
  ⟨"Volume", "🥤", "liter",
    [("milliliter", ⟨"Milliliter", "ml", 0.001, "metric"⟩),
     ("liter", ⟨"Liter", "l", 1, "metric"⟩),
     ("cubicMeter", ⟨"Cubic Meter", "m³", 1000, "metric"⟩),
     ("fluidOunce", ⟨"Fluid Ounce (US)", "fl oz", 0.0295735, "imperial"⟩),
     ("cup", ⟨"Cup (US)", "cup", 0.236588, "imperial"⟩),
     ("pint", ⟨"Pint (US)", "pt", 0.473176, "imperial"⟩),
     ("quart", ⟨"Quart (US)", "qt", 0.946353, "imperial"⟩),
     ("gallon", ⟨"Gallon (US)", "gal", 3.78541, "imperial"⟩),
     ("fluidOunceUK", ⟨"Fluid Ounce (UK)", "fl oz (UK)", 0.0284131, "uk-imperial"⟩),
     ("pintUK", ⟨"Pint (UK)", "pt (UK)", 0.568261, "uk-imperial"⟩),
     ("gallonUK", ⟨"Gallon (UK)", "gal (UK)", 4.54609, "uk-imperial"⟩)]⟩

/-- `temperature` category of `unitCategories.js`. -/
def temperatureCategory : Category :=
  ⟨"Temperature", "🌡️", "celsius",
    [("celsius", ⟨"Celsius", "°C", 1, "metric"⟩),
     ("fahrenheit", ⟨"Fahrenheit", "°F", 1, "imperial"⟩),
     ("kelvin", ⟨"Kelvin", "K", 1, "scientific"⟩),
     ("rankine", ⟨"Rankine", "°R", 1, "scientific"⟩)]⟩

/-- `area` category of `unitCategories.js`. -/
def areaCategory : Category :=
  ⟨"Area", "📐", "squareMeter",
    [("squareMillimeter", ⟨"Square Millimeter", "mm²", 1e-6, "metric"⟩),
     ("squareCentimeter", ⟨"Square Centimeter", "cm²", 1e-4, "metric"⟩),
     ("squareMeter", ⟨"Square Meter", "m²", 1, "metric"⟩),
     ("hectare", ⟨"Hectare", "ha", 10000, "metric"⟩),
     ("squareKilometer", ⟨"Square Kilometer", "km²", 1e6, "metric"⟩),
     ("squareInch", ⟨"Square Inch", "in²", 0.00064516, "imperial"⟩),
     ("squareFoot", ⟨"Square Foot", "ft²", 0.092903, "imperial"⟩),
     ("squareYard", ⟨"Square Yard", "yd²", 0.836127, "imperial"⟩),
     ("acre", ⟨"Acre", "ac", 4046.86, "imperial"⟩),
     ("squareMile", ⟨"Square Mile", "mi²", 2.59e6, "imperial"⟩)]⟩

/-- `time` category of `unitCategories.js`. -/
def timeCategory : Category :=
  ⟨"Time", "⏰", "second",
    [("nanosecond", ⟨"Nanosecond", "ns", 1e-9, "scientific"⟩),
     ("microsecond", ⟨"Microsecond", "μs", 1e-6, "scientific"⟩),
     ("millisecond", ⟨"Millisecond", "ms", 0.001, "metric"⟩),
     ("second", ⟨"Second", "s", 1, "metric"⟩),
     ("minute", ⟨"Minute", "min", 60, "common"⟩),
     ("hour", ⟨"Hour", "h", 3600, "common"⟩),
     ("day", ⟨"Day", "d", 86400, "common"⟩),
     ("week", ⟨"Week", "wk", 604800, "common"⟩),
     ("month", ⟨"Month", "mo", 2629746, "common"⟩),
     ("year", ⟨"Year", "yr", 31556952, "common"⟩)]⟩

/-- `speed` category of `unitCategories.js`. -/
def speedCategory : Category :=
  ⟨"Speed", "🏃", "meterPerSecond",
    [("meterPerSecond", ⟨"Meter per Second", "m/s", 1, "metric"⟩),
     ("kilometerPerHour", ⟨"Kilometer per Hour", "km/h", 0.277778, "metric"⟩),
     ("milePerHour", ⟨"Mile per Hour", "mph", 0.44704, "imperial"⟩),
     ("footPerSecond", ⟨"Foot per Second", "ft/s", 0.3048, "imperial"⟩),
     ("knot", ⟨"Knot", "kn", 0.514444, "nautical"⟩),
     ("mach", ⟨"Mach", "Ma", 343, "scientific"⟩)]⟩

/-- `energy` category of `unitCategories.js`. -/
def energyCategory : Category :=
  ⟨"Energy", "⚡", "joule",
    [("joule", ⟨"Joule", "J", 1, "metric"⟩),
     ("kilojoule", ⟨"Kilojoule", "kJ", 1000, "metric"⟩),
     ("calorie", ⟨"Calorie", "cal", 4.184, "metric"⟩),
     ("kilocalorie", ⟨"Kilocalorie", "kcal", 4184, "metric"⟩),
     ("wattHour", ⟨"Watt Hour", "Wh", 3600, "electrical"⟩),
     ("kilowattHour", ⟨"Kilowatt Hour", "kWh", 3.6e6, "electrical"⟩),
     ("btu", ⟨"British Thermal Unit", "BTU", 1055.06, "imperial"⟩)]⟩

/-- The unit registry `UNIT_CATEGORIES` of `unitCategories.js`, in
declaration order. -/
def UNIT_CATEGORIES : List (String × Category) :=
  [("length", lengthCategory),
   ("weight", weightCategory),
   ("volume", volumeCategory),
   ("temperature", temperatureCategory),
   ("area", areaCategory),
   ("time", timeCategory),
   ("speed", speedCategory),
   ("energy", energyCategory)]

/-- `Number.EPSILON` : the gap between 1 and the next representable
double, `2^-52`. -/
def EPSILON : ℚ := 1 / 2 ^ 52

/-- `roundToPrecision(num, decimals)` of `conversionUtils.js`:
`Math.round((num + Number.EPSILON) * 10^decimals) / 10^decimals`.
The source defaults `decimals` to 10; every internal call uses that
default, made explicit here. -/
def roundToPrecision (num : JSNum) (decimals : Nat) : JSNum :=
  jsDiv (jsRound (jsMul (jsAdd num (JSNum.fin EPSILON)) (JSNum.fin ((10 : ℚ) ^ decimals))))
    (JSNum.fin ((10 : ℚ) ^ decimals))

/-- The rounding map of `roundToPrecision` restricted to finite values at
the default 10 decimals, as a pure function on rationals. -/
def roundQ (x : ℚ) : ℚ := ((⌊(x + EPSILON) * 10 ^ 10 + 1 / 2⌋ : ℤ) : ℚ) / 10 ^ 10

/-- `convertTemperature(value, fromUnit, toUnit)` of `conversionUtils.js`:
pivot through Celsius, throwing on unknown units, rounding at the end.
JavaScript evaluates `(value - 32) * 5 / 9` as `((value - 32) * 5) / 9`,
mirrored exactly. -/
def convertTemperature (value : JSNum) (fromUnit toUnit : String) : Except String JSNum :=
  if fromUnit = toUnit then Except.ok value
  else
    let celsiusE : Except String JSNum :=
      match fromUnit with
      | "celsius" => Except.ok value
      | "fahrenheit" => Except.ok (jsDiv (jsMul (jsSub value (JSNum.fin 32)) (JSNum.fin 5)) (JSNum.fin 9))
      | "kelvin" => Except.ok (jsSub value (JSNum.fin 273.15))
      | "rankine" => Except.ok (jsDiv (jsMul (jsSub value (JSNum.fin 491.67)) (JSNum.fin 5)) (JSNum.fin 9))
      | _ => Except.error ("Unknown temperature unit: " ++ fromUnit)
    match celsiusE with
    | Except.error e => Except.error e
    | Except.ok celsius =>
      let resultE : Except String JSNum :=
        match toUnit with
        | "celsius" => Except.ok celsius
        | "fahrenheit" => Except.ok (jsAdd (jsDiv (jsMul celsius (JSNum.fin 9)) (JSNum.fin 5)) (JSNum.fin 32))
        | "kelvin" => Except.ok (jsAdd celsius (JSNum.fin 273.15))
        | "rankine" => Except.ok (jsAdd (jsDiv (jsMul celsius (JSNum.fin 9)) (JSNum.fin 5)) (JSNum.fin 491.67))
        | _ => Except.error ("Unknown temperature unit: " ++ toUnit)
      match resultE with
      | Except.error e => Except.error e
      | Except.ok result => Except.ok (roundToPrecision result 10)

/-- `convertWithFactors(value, fromUnit, toUnit, category)` of
`conversionUtils.js`. The source wraps the unknown-unit names in single
quotes inside the message; the quotes are omitted here (no claim inspects
these messages). -/
def convertWithFactors (value : JSNum) (fromUnit toUnit category : String) : Except String JSNum :=
  if fromUnit = toUnit then Except.ok value
  else
    match List.lookup category UNIT_CATEGORIES with
    | none => Except.error ("Unknown category: " ++ category)
    | some categoryData =>
      match List.lookup fromUnit categoryData.units with
      | none => Except.error ("Unknown unit " ++ fromUnit ++ " in category " ++ category)
      | some fromUnitData =>
        match List.lookup toUnit categoryData.units with
        | none => Except.error ("Unknown unit " ++ toUnit ++ " in category " ++ category)
        | some toUnitData =>
          let baseValue := jsMul value (JSNum.fin fromUnitData.factor)
          let result := jsDiv baseValue (JSNum.fin toUnitData.factor)
          Except.ok (roundToPrecision result 10)

/-- `getTemperatureFormula(fromUnit, toUnit)` of `conversionUtils.js`:
fixed table keyed by the joined pair, defaulting to the empty string. -/
def getTemperatureFormula (fromUnit toUnit : String) : String :=
  let formulas : List (String × String) :=
    [("celsius-fahrenheit", "°C × 9/5 + 32 = °F"),
     ("fahrenheit-celsius", "(°F - 32) × 5/9 = °C"),
     ("celsius-kelvin", "°C + 273.15 = K"),
     ("kelvin-celsius", "K - 273.15 = °C"),
     ("fahrenheit-kelvin", "(°F - 32) × 5/9 + 273.15 = K"),
     ("kelvin-fahrenheit", "(K - 273.15) × 9/5 + 32 = °F"),
     ("celsius-rankine", "°C × 9/5 + 491.67 = °R"),
     ("rankine-celsius", "(°R - 491.67) × 5/9 = °C"),
     ("fahrenheit-rankine", "°F + 459.67 = °R"),
     ("rankine-fahrenheit", "°R - 459.67 = °F"),
     ("kelvin-rankine", "K × 9/5 = °R"),
     ("rankine-kelvin", "°R × 5/9 = K")]
  (List.lookup (fromUnit ++ "-" ++ toUnit) formulas).getD ""

/-- `getConversionFormula(value, fromUnit, toUnit, category)` of
`conversionUtils.js`: empty string on any failed lookup, fixed table for
temperature, interpolated linear formula otherwise. -/
def getConversionFormula (value : JSValue) (fromUnit toUnit category : String) : String :=
  match List.lookup category UNIT_CATEGORIES with
  | none => ""
  | some categoryData =>
    match List.lookup fromUnit categoryData.units, List.lookup toUnit categoryData.units with
    | some fromUnitData, some toUnitData =>
      if category = "temperature" then getTemperatureFormula fromUnit toUnit
      else
        let factor := fromUnitData.factor / toUnitData.factor
        jsValueToString value ++ " " ++ fromUnitData.symbol ++ " = " ++
          jsValueToString value ++ " × " ++ toString factor ++ " = " ++
          jsNumToString (roundToPrecision (jsMul (jsValueToNum value) (JSNum.fin factor)) 10) ++
          " " ++ toUnitData.symbol
    | _, _ => ""

/-- Falsiness of an optional string argument (`undefined`, `null` and the
empty string are the falsy cases JavaScript sees for these parameters). -/
def falsyStr : Option String → Bool
  | none => true
  | some s => s == ""

/-- The result object built by `convert` (fields `success`, `error`,
`originalValue`, `convertedValue`, `fromUnit`, `toUnit`, `category`,
`formula`, `timestamp` in this order). Fields absent from one of the two
source shapes are `none`. -/
structure ConvResult where
  success : Bool
  error : Option String
  originalValue : JSValue
  convertedValue : Option JSNum
  fromUnit : Option String
  toUnit : Option String
  category : Option String
  formula : Option String
  timestamp : String
deriving DecidableEq, Repr

/-- The body of the `try` block of `convert`: validation and dispatch to
the two algorithms; each `throw` of the source is an `Except.error`. -/
def convertChecked (value : JSValue) (fromUnit toUnit category : Option String) :
    Except String JSNum :=
  if !jsTypeofNumber value || jsIsNaNValue value then
    Except.error "Value must be a valid number"
  else if falsyStr fromUnit || falsyStr toUnit || falsyStr category then
    Except.error "From unit, to unit, and category are required"
  else
    let f := fromUnit.getD ""
    let t := toUnit.getD ""
    let c := category.getD ""
    if (List.lookup c UNIT_CATEGORIES).isNone then
      Except.error ("Unknown category: " ++ c)
    else if c = "temperature" then
      convertTemperature (jsValueToNum value) f t
    else
      convertWithFactors (jsValueToNum value) f t c

/-- `convert(value, fromUnit, toUnit, category)` of `conversionUtils.js`:
runs the checked body and normalises either outcome into the result
object; `now` stands for `new Date().toISOString()`. -/
def convert (now : String) (value : JSValue) (fromUnit toUnit category : Option String) :
    ConvResult :=
  match convertChecked value fromUnit toUnit category with
  | Except.ok result =>
      ⟨true, none, value, some result, fromUnit, toUnit, category,
        some (getConversionFormula value (fromUnit.getD "") (toUnit.getD "") (category.getD "")),
        now⟩
  | Except.error msg =>
      ⟨false, some msg, value, none, fromUnit, toUnit, category, none, now⟩

/-- The four temperature unit keys. -/
def temperatureUnitKeys : List String := ["celsius", "fahrenheit", "kelvin", "rankine"]

/-- Modelled from the spec: the from-unit-to-Celsius affine maps
(celsius: identity; fahrenheit: `(v-32)*5/9`; kelvin: `v-273.15`;
rankine: `(v-491.67)*5/9`). Used to compare the engine against the
specified algebra. -/
def specTempToCelsius (u : String) (v : ℚ) : ℚ :=
  match u with
  | "celsius" => v
  | "fahrenheit" => (v - 32) * 5 / 9
  | "kelvin" => v - 273.15
  | "rankine" => (v - 491.67) * 5 / 9
  | _ => 0

/-- Modelled from the spec: the Celsius-to-target affine maps
(celsius: identity; fahrenheit: `c*9/5+32`; kelvin: `c+273.15`;
rankine: `c*9/5+491.67`). -/
def specCelsiusTo (u : String) (c : ℚ) : ℚ :=
  match u with
  | "celsius" => c
  | "fahrenheit" => c * 9 / 5 + 32
  | "kelvin" => c + 273.15
  | "rankine" => c * 9 / 5 + 491.67
  | _ => 0

/-- The finite converted value carried by a result (0 if absent or not
finite); used to express round-trip properties. -/
def convertedValueQ (r : ConvResult) : ℚ :=
  match r.convertedValue with
  | some (JSNum.fin q) => q
  | _ => 0

/-! Basic lemmas about the arithmetic layer and the registry. -/

theorem jsDiv_fin (a b : ℚ) (hb : b ≠ 0) :
    jsDiv (JSNum.fin a) (JSNum.fin b) = JSNum.fin (a / b) := by
  simp [jsDiv, hb]

theorem roundToPrecision_fin (q : ℚ) :
    roundToPrecision (JSNum.fin q) 10 = JSNum.fin (roundQ q) := by
  simp [roundToPrecision, jsAdd, jsMul, jsRound, jsDiv, roundQ]

theorem roundQ_eq (x : ℚ) (n : ℤ) (h1 : (n : ℚ) ≤ (x + EPSILON) * 10 ^ 10 + 1 / 2)
    (h2 : (x + EPSILON) * 10 ^ 10 + 1 / 2 < (n : ℚ) + 1) : roundQ x = (n : ℚ) / 10 ^ 10 := by
  have h : ⌊(x + EPSILON) * 10 ^ 10 + 1 / 2⌋ = n := Int.floor_eq_iff.mpr ⟨h1, by exact_mod_cast h2⟩
  rw [roundQ, h]

theorem roundQ_close (x : ℚ) : |roundQ x - x| ≤ EPSILON + 1 / (2 * 10 ^ 10) := by
  have hE : (0 : ℚ) < 10 ^ 10 := by norm_num
  have heps : (0 : ℚ) < EPSILON := by norm_num [EPSILON]
  have h1 : ((⌊(x + EPSILON) * 10 ^ 10 + 1 / 2⌋ : ℤ) : ℚ) ≤ (x + EPSILON) * 10 ^ 10 + 1 / 2 :=
    Int.floor_le _
  have h2 : (x + EPSILON) * 10 ^ 10 + 1 / 2 < ((⌊(x + EPSILON) * 10 ^ 10 + 1 / 2⌋ : ℤ) : ℚ) + 1 :=
    Int.lt_floor_add_one _
  rw [roundQ, abs_le]
  constructor
  · have h3 : x - (EPSILON + 1 / (2 * 10 ^ 10)) ≤
        ((⌊(x + EPSILON) * 10 ^ 10 + 1 / 2⌋ : ℤ) : ℚ) / 10 ^ 10 := by
      rw [le_div_iff₀ hE]
      nlinarith
    linarith
  · have h4 : ((⌊(x + EPSILON) * 10 ^ 10 + 1 / 2⌋ : ℤ) : ℚ) / 10 ^ 10 ≤
        x + (EPSILON + 1 / (2 * 10 ^ 10)) := by
      rw [div_le_iff₀ hE]
      nlinarith
    linarith

theorem lookup_mem {α : Type} {l : List (String × α)} {k : String} {x : α}
    (h : List.lookup k l = some x) : (k, x) ∈ l := by
  induction l with
  | nil => simp [List.lookup] at h
  | cons p l ih =>
    cases p with
    | mk a b =>
      rw [List.lookup] at h
      by_cases hk : k = a
      · subst hk
        simp at h
        subst h
        exact List.mem_cons_self _ _
      · have hb : (k == a) = false := beq_eq_false_iff_ne.mpr hk
        rw [hb] at h
        exact List.mem_cons_of_mem _ (ih h)

theorem registry_factor_pos :
    ∀ p ∈ UNIT_CATEGORIES, ∀ q ∈ p.2.units, 0 < q.2.factor := by
  intro p hp
  fin_cases hp <;> intro q hq <;> fin_cases hq <;> norm_num

theorem registry_keys_ne :
    ∀ p ∈ UNIT_CATEGORIES, p.1 ≠ "" ∧ ∀ q ∈ p.2.units, q.1 ≠ "" := by
  decide

theorem unit_factor_pos {c : String} {cat : Category} {u : String} {ud : UnitEntry}
    (hc : List.lookup c UNIT_CATEGORIES = some cat)
    (hu : List.lookup u cat.units = some ud) : 0 < ud.factor :=
  registry_factor_pos (c, cat) (lookup_mem hc) (u, ud) (lookup_mem hu)

theorem cat_key_ne {c : String} {cat : Category}
    (hc : List.lookup c UNIT_CATEGORIES = some cat) : c ≠ "" :=
  (registry_keys_ne (c, cat) (lookup_mem hc)).1

theorem unit_key_ne {c : String} {cat : Category} {u : String} {ud : UnitEntry}
    (hc : List.lookup c UNIT_CATEGORIES = some cat)
    (hu : List.lookup u cat.units = some ud) : u ≠ "" :=
  (registry_keys_ne (c, cat) (lookup_mem hc)).2 (u, ud) (lookup_mem hu)

theorem lookup_temperature_cat :
    List.lookup "temperature" UNIT_CATEGORIES = some temperatureCategory := rfl

theorem lookup_length_cat :
    List.lookup "length" UNIT_CATEGORIES = some lengthCategory := rfl

theorem convertedValueQ_of (r : ConvResult) (q : ℚ)
    (h : r.convertedValue = some (JSNum.fin q)) : convertedValueQ r = q := by
  rw [convertedValueQ.eq_def, h]

/-! Path lemmas for `convertChecked`. -/

theorem convertChecked_num (v : ℚ) (f t c : String)
    (hf : f ≠ "") (ht : t ≠ "") (hc : c ≠ "") :
    convertChecked (JSValue.num (JSNum.fin v)) (some f) (some t) (some c) =
      (if (List.lookup c UNIT_CATEGORIES).isNone then
        Except.error ("Unknown category: " ++ c)
      else if c = "temperature" then convertTemperature (JSNum.fin v) f t
      else convertWithFactors (JSNum.fin v) f t c) := by
  rw [convertChecked]
  simp [jsTypeofNumber, jsIsNaNValue, falsyStr, jsValueToNum, hf, ht, hc]

theorem convertChecked_numValue (n : JSNum) (hn : n ≠ JSNum.nan) (f t c : String)
    (hf : f ≠ "") (ht : t ≠ "") (hc : c ≠ "") :
    convertChecked (JSValue.num n) (some f) (some t) (some c) =
      (if (List.lookup c UNIT_CATEGORIES).isNone then
        Except.error ("Unknown category: " ++ c)
      else if c = "temperature" then convertTemperature n f t
      else convertWithFactors n f t c) := by
  cases n with
  | nan => exact absurd rfl hn
  | fin q =>
    rw [convertChecked]
    simp [jsTypeofNumber, jsIsNaNValue, falsyStr, jsValueToNum, hf, ht, hc]
  | inf =>
    rw [convertChecked]
    simp [jsTypeofNumber, jsIsNaNValue, falsyStr, jsValueToNum, hf, ht, hc]
  | neginf =>
    rw [convertChecked]
    simp [jsTypeofNumber, jsIsNaNValue, falsyStr, jsValueToNum, hf, ht, hc]

theorem convertChecked_factors {c : String} {cat : Category} {f t : String}
    {fu tu : UnitEntry}
    (hc : List.lookup c UNIT_CATEGORIES = some cat) (hct : c ≠ "temperature")
    (hf : List.lookup f cat.units = some fu) (ht : List.lookup t cat.units = some tu)
    (hft : f ≠ t) (v : ℚ) :
    convertChecked (JSValue.num (JSNum.fin v)) (some f) (some t) (some c) =
      Except.ok (JSNum.fin (roundQ (v * fu.factor / tu.factor))) := by
  have htf : (0 : ℚ) < tu.factor := unit_factor_pos hc ht
  rw [convertChecked_num v f t c (unit_key_ne hc hf) (unit_key_ne hc ht) (cat_key_ne hc)]
  rw [if_neg (by simp [hc]), if_neg hct]
  rw [convertWithFactors, if_neg hft]
  simp only [hc, hf, ht, jsMul]
  rw [jsDiv_fin _ _ (ne_of_gt htf), roundToPrecision_fin]

theorem convertChecked_temperature {f t : String}
    (hf : f ∈ temperatureUnitKeys) (ht : t ∈ temperatureUnitKeys)
    (hft : f ≠ t) (v : ℚ) :
    convertChecked (JSValue.num (JSNum.fin v)) (some f) (some t) (some "temperature") =
      Except.ok (JSNum.fin (roundQ (specCelsiusTo t (specTempToCelsius f v)))) := by
  fin_cases hf <;> fin_cases ht <;>
    first
    | exact absurd rfl hft
    | (rw [convertChecked_num v _ _ _ (by decide) (by decide) (by decide)]
       simp [lookup_temperature_cat, convertTemperature, jsAdd, jsSub, jsMul, jsDiv,
         roundToPrecision_fin, specTempToCelsius, specCelsiusTo])

theorem convertChecked_same {c u : String} (hc : (List.lookup c UNIT_CATEGORIES).isSome)
    (hu : u ≠ "") (v : ℚ) :
    convertChecked (JSValue.num (JSNum.fin v)) (some u) (some u) (some c) =
      Except.ok (JSNum.fin v) := by
  obtain ⟨cat, hcat⟩ := Option.isSome_iff_exists.mp hc
  rw [convertChecked_num v u u c hu hu (cat_key_ne hcat)]
  rw [if_neg (by simp [hcat])]
  by_cases hct : c = "temperature"
  · rw [if_pos hct, convertTemperature.eq_def, if_pos rfl]
  · rw [if_neg hct, convertWithFactors.eq_def, if_pos rfl]

/-! Claim theorems. -/

/-- C1: for every non-temperature category `c` in the registry, every pair
of distinct unit keys `f` and `t` that exist in `c`, and every finite
number `v`, `convert` returns a success result whose converted value
equals `round10((v * factor f) / factor t)`, where `round10` adds the
numeric epsilon, scales by `10^10`, rounds, and scales back. -/
theorem spec_linear_factor_conversion (now : String) (c : String) (cat : Category)
    (f t : String) (fu tu : UnitEntry)
    (hc : List.lookup c UNIT_CATEGORIES = some cat) (hct : c ≠ "temperature")
    (hf : List.lookup f cat.units = some fu) (ht : List.lookup t cat.units = some tu)
    (hft : f ≠ t) (v : ℚ) :
    (convert now (JSValue.num (JSNum.fin v)) (some f) (some t) (some c)).success = true ∧
    (convert now (JSValue.num (JSNum.fin v)) (some f) (some t) (some c)).convertedValue =
      some (JSNum.fin (roundQ (v * fu.factor / tu.factor))) := by
  rw [convert.eq_def, convertChecked_factors hc hct hf ht hft v]
  exact ⟨rfl, rfl⟩

/-- Witness for C1: 1 meter is 100 centimeters. -/
theorem spec_linear_factor_conversion_witness :
    (convert "" (JSValue.num (JSNum.fin 1)) (some "meter") (some "centimeter")
        (some "length")).success = true ∧
    (convert "" (JSValue.num (JSNum.fin 1)) (some "meter") (some "centimeter")
        (some "length")).convertedValue = some (JSNum.fin 100) := by
  have h := spec_linear_factor_conversion "" "length" lengthCategory "meter" "centimeter"
    ⟨"Meter", "m", 1, "metric"⟩ ⟨"Centimeter", "cm", 0.01, "metric"⟩
    rfl (by decide) rfl rfl (by decide) 1
  refine ⟨h.1, h.2.trans ?_⟩
  show some (JSNum.fin (roundQ (1 * 1 / 0.01))) = some (JSNum.fin 100)
  rw [show (1 * (1 : ℚ) / 0.01) = 100 by norm_num]
  rw [roundQ_eq 100 1000000000000 (by norm_num [EPSILON]) (by norm_num [EPSILON])]
  norm_num

/-- C2: for distinct temperature units, `convert` composes the
from-unit-to-Celsius and Celsius-to-target affine maps and rounds to 10
decimals; in particular 0 °C = 32 °F, 100 °C = 212 °F, -40 °C = -40 °F,
and 0 °C = 273.15 K. -/
theorem spec_temperature_conversion (now : String) :
    (∀ f t v, f ∈ temperatureUnitKeys → t ∈ temperatureUnitKeys → f ≠ t →
      (convert now (JSValue.num (JSNum.fin v)) (some f) (some t)
          (some "temperature")).success = true ∧
      (convert now (JSValue.num (JSNum.fin v)) (some f) (some t)
          (some "temperature")).convertedValue =
        some (JSNum.fin (roundQ (specCelsiusTo t (specTempToCelsius f v))))) ∧
    (convert now (JSValue.num (JSNum.fin 0)) (some "celsius") (some "fahrenheit")
        (some "temperature")).convertedValue = some (JSNum.fin 32) ∧
    (convert now (JSValue.num (JSNum.fin 100)) (some "celsius") (some "fahrenheit")
        (some "temperature")).convertedValue = some (JSNum.fin 212) ∧
    (convert now (JSValue.num (JSNum.fin (-40))) (some "celsius") (some "fahrenheit")
        (some "temperature")).convertedValue = some (JSNum.fin (-40)) ∧
    (convert now (JSValue.num (JSNum.fin 0)) (some "celsius") (some "kelvin")
        (some "temperature")).convertedValue = some (JSNum.fin 273.15) := by
  refine ⟨?_, ?_, ?_, ?_, ?_⟩
  · intro f t v hf ht hft
    rw [convert.eq_def, convertChecked_temperature hf ht hft v]
    exact ⟨rfl, rfl⟩
  · rw [convert.eq_def, convertChecked_temperature (by decide) (by decide) (by decide) 0]
    show some (JSNum.fin (roundQ (0 * 9 / 5 + 32))) = _
    rw [show (0 : ℚ) * 9 / 5 + 32 = 32 by norm_num]
    rw [roundQ_eq 32 320000000000 (by norm_num [EPSILON]) (by norm_num [EPSILON])]
    norm_num
  · rw [convert.eq_def, convertChecked_temperature (by decide) (by decide) (by decide) 100]
    show some (JSNum.fin (roundQ (100 * 9 / 5 + 32))) = _
    rw [show (100 : ℚ) * 9 / 5 + 32 = 212 by norm_num]
    rw [roundQ_eq 212 2120000000000 (by norm_num [EPSILON]) (by norm_num [EPSILON])]
    norm_num
  · rw [convert.eq_def, convertChecked_temperature (by decide) (by decide) (by decide) (-40)]
    show some (JSNum.fin (roundQ ((-40) * 9 / 5 + 32))) = _
    rw [show (-40 : ℚ) * 9 / 5 + 32 = -40 by norm_num]
    rw [roundQ_eq (-40) (-400000000000) (by norm_num [EPSILON]) (by norm_num [EPSILON])]
    norm_num
  · rw [convert.eq_def, convertChecked_temperature (by decide) (by decide) (by decide) 0]
    show some (JSNum.fin (roundQ (0 + 273.15))) = _
    rw [show (0 : ℚ) + 273.15 = 273.15 by norm_num]
    rw [roundQ_eq 273.15 2731500000000 (by norm_num [EPSILON]) (by norm_num [EPSILON])]
    norm_num

/-- Witness for C2: 100 °C converts successfully to Fahrenheit. -/
theorem spec_temperature_conversion_witness :
    (convert "" (JSValue.num (JSNum.fin 100)) (some "celsius") (some "fahrenheit")
        (some "temperature")).success = true :=
  ((spec_temperature_conversion "").1 "celsius" "fahrenheit" 100
    (by decide) (by decide) (by decide)).1

/-- C3: for every category in the registry, every unit key existing in it
and every finite `v`, converting from a unit to itself succeeds and
returns `v` exactly, with no rounding, in both algorithms. -/
theorem spec_identity_conversion (now : String) (c : String) (cat : Category)
    (u : String) (ud : UnitEntry)
    (hc : List.lookup c UNIT_CATEGORIES = some cat)
    (hu : List.lookup u cat.units = some ud) (v : ℚ) :
    (convert now (JSValue.num (JSNum.fin v)) (some u) (some u) (some c)).success = true ∧
    (convert now (JSValue.num (JSNum.fin v)) (some u) (some u) (some c)).convertedValue =
      some (JSNum.fin v) := by
  rw [convert.eq_def, convertChecked_same (by rw [hc]; rfl) (unit_key_ne hc hu) v]
  exact ⟨rfl, rfl⟩

/-- Witness for C3: 5 meters to meters is exactly 5; likewise on the
temperature path with kelvin. -/
theorem spec_identity_conversion_witness :
    ((convert "" (JSValue.num (JSNum.fin 5)) (some "meter") (some "meter")
        (some "length")).convertedValue = some (JSNum.fin 5)) ∧
    ((convert "" (JSValue.num (JSNum.fin 5)) (some "kelvin") (some "kelvin")
        (some "temperature")).convertedValue = some (JSNum.fin 5)) :=
  ⟨(spec_identity_conversion "" "length" lengthCategory "meter"
      ⟨"Meter", "m", 1, "metric"⟩ rfl rfl 5).2,
   (spec_identity_conversion "" "temperature" temperatureCategory "kelvin"
      ⟨"Kelvin", "K", 1, "scientific"⟩ rfl rfl 5).2⟩

/-- C5: `convert` is total across its boundary: for every input it
returns a well-formed result — either a success record with a converted
value and a formula and no error, or a failure record with an error
message and no converted value — always echoing the original value, the
unit and category arguments, and the timestamp. -/
theorem spec_convert_never_throws (now : String) (value : JSValue)
    (fromUnit toUnit category : Option String) :
    ((convert now value fromUnit toUnit category).originalValue = value ∧
     (convert now value fromUnit toUnit category).fromUnit = fromUnit ∧
     (convert now value fromUnit toUnit category).toUnit = toUnit ∧
     (convert now value fromUnit toUnit category).category = category ∧
     (convert now value fromUnit toUnit category).timestamp = now) ∧
    (((convert now value fromUnit toUnit category).success = true ∧
      (convert now value fromUnit toUnit category).error = none ∧
      (∃ r, (convert now value fromUnit toUnit category).convertedValue = some r) ∧
      (∃ s, (convert now value fromUnit toUnit category).formula = some s)) ∨
     ((convert now value fromUnit toUnit category).success = false ∧
      (∃ m, (convert now value fromUnit toUnit category).error = some m) ∧
      (convert now value fromUnit toUnit category).convertedValue = none ∧
      (convert now value fromUnit toUnit category).formula = none)) := by
  cases h : convertChecked value fromUnit toUnit category with
  | ok r =>
    rw [convert.eq_def, h]
    exact ⟨⟨rfl, rfl, rfl, rfl, rfl⟩, Or.inl ⟨rfl, rfl, ⟨r, rfl⟩, ⟨_, rfl⟩⟩⟩
  | error m =>
    rw [convert.eq_def, h]
    exact ⟨⟨rfl, rfl, rfl, rfl, rfl⟩, Or.inr ⟨rfl, ⟨m, rfl⟩, rfl, rfl⟩⟩

/-- C9: every category's base unit key is present in its own unit mapping
with factor 1, and every temperature unit carries factor 1. -/
theorem spec_registry_invariant :
    (∀ p ∈ UNIT_CATEGORIES,
      (List.lookup p.2.baseUnit p.2.units).map UnitEntry.factor = some 1) ∧
    (∀ p ∈ UNIT_CATEGORIES, p.1 = "temperature" → ∀ q ∈ p.2.units, q.2.factor = 1) := by
  refine ⟨?_, ?_⟩
  · intro p hp
    fin_cases hp <;> rfl
  · intro p hp
    fin_cases hp <;> intro h <;>
      first
      | exact absurd h (by decide)
      | (intro q hq; fin_cases hq <;> rfl)

/-- Witness for C9: the length category's base unit `meter` is present
with factor 1. -/
theorem spec_registry_invariant_witness :
    (List.lookup lengthCategory.baseUnit lengthCategory.units).map UnitEntry.factor =
      some 1 :=
  spec_registry_invariant.1 ("length", lengthCategory) (List.mem_cons_self _ _)

/-- C8: formula rendering is total: each of the 12 non-identity ordered
temperature pairs renders exactly the fixed string of the source table,
same-unit temperature pairs render the empty string, and any unresolvable
category or unit renders the empty string rather than failing. -/
theorem spec_formula_table (v : JSValue) :
    (getConversionFormula v "celsius" "fahrenheit" "temperature" = "°C × 9/5 + 32 = °F" ∧
     getConversionFormula v "fahrenheit" "celsius" "temperature" = "(°F - 32) × 5/9 = °C" ∧
     getConversionFormula v "celsius" "kelvin" "temperature" = "°C + 273.15 = K" ∧
     getConversionFormula v "kelvin" "celsius" "temperature" = "K - 273.15 = °C" ∧
     getConversionFormula v "fahrenheit" "kelvin" "temperature" =
       "(°F - 32) × 5/9 + 273.15 = K" ∧
     getConversionFormula v "kelvin" "fahrenheit" "temperature" =
       "(K - 273.15) × 9/5 + 32 = °F" ∧
     getConversionFormula v "celsius" "rankine" "temperature" = "°C × 9/5 + 491.67 = °R" ∧
     getConversionFormula v "rankine" "celsius" "temperature" = "(°R - 491.67) × 5/9 = °C" ∧
     getConversionFormula v "fahrenheit" "rankine" "temperature" = "°F + 459.67 = °R" ∧
     getConversionFormula v "rankine" "fahrenheit" "temperature" = "°R - 459.67 = °F" ∧
     getConversionFormula v "kelvin" "rankine" "temperature" = "K × 9/5 = °R" ∧
     getConversionFormula v "rankine" "kelvin" "temperature" = "°R × 5/9 = K") ∧
    (∀ u ∈ temperatureUnitKeys, getConversionFormula v u u "temperature" = "") ∧
    (∀ f t c, List.lookup c UNIT_CATEGORIES = none → getConversionFormula v f t c = "") ∧
    (∀ f t c cat, List.lookup c UNIT_CATEGORIES = some cat →
      List.lookup f cat.units = none → getConversionFormula v f t c = "") ∧
    (∀ f t c cat, List.lookup c UNIT_CATEGORIES = some cat →
      List.lookup t cat.units = none → getConversionFormula v f t c = "") := by
  refine ⟨⟨rfl, rfl, rfl, rfl, rfl, rfl, rfl, rfl, rfl, rfl, rfl, rfl⟩, ?_, ?_, ?_, ?_⟩
  · intro u hu
    fin_cases hu <;> rfl
  · intro f t c h
    rw [getConversionFormula.eq_def, h]
  · intro f t c cat h1 h2
    rw [getConversionFormula.eq_def]
    simp only [h1, h2]
  · intro f t c cat h1 h2
    rw [getConversionFormula.eq_def]
    simp only [h1, h2]
    cases h3 : List.lookup f cat.units <;> rfl

/-- Witness for C8: the kelvin→rankine entry at a number input, and an
unknown category rendering the empty string. -/
theorem spec_formula_table_witness :
    getConversionFormula (JSValue.num (JSNum.fin 0)) "kelvin" "rankine" "temperature" =
      "K × 9/5 = °R" ∧
    getConversionFormula (JSValue.num (JSNum.fin 0)) "meter" "foot" "bogus" = "" := by
  constructor
  · exact (spec_formula_table (JSValue.num (JSNum.fin 0))).1.2.2.2.2.2.2.2.2.2.2.1
  · exact (spec_formula_table (JSValue.num (JSNum.fin 0))).2.2.1 "meter" "foot" "bogus" rfl

/-- C6 counterexample: the claim requires failure for every non-finite
value, but Infinity passes the NaN-only check and converts successfully
(to Infinity). -/
theorem spec_invalid_value_counterexample :
    (convert "" (JSValue.num JSNum.inf) (some "meter") (some "centimeter")
        (some "length")).success = true ∧
    (convert "" (JSValue.num JSNum.inf) (some "meter") (some "centimeter")
        (some "length")).convertedValue = some JSNum.inf := by
  have hcc : convertChecked (JSValue.num JSNum.inf) (some "meter") (some "centimeter")
      (some "length") = Except.ok JSNum.inf := by
    rw [convertChecked_numValue JSNum.inf (by decide) "meter" "centimeter" "length"
      (by decide) (by decide) (by decide)]
    rw [if_neg (by decide), if_neg (by decide)]
    rw [convertWithFactors.eq_def, if_neg (by decide)]
    simp only [lookup_length_cat,
      show List.lookup "meter" lengthCategory.units =
        some ⟨"Meter", "m", 1, "metric"⟩ from rfl,
      show List.lookup "centimeter" lengthCategory.units =
        some ⟨"Centimeter", "cm", 0.01, "metric"⟩ from rfl]
    norm_num [jsMul, jsDiv, jsAdd, jsRound, roundToPrecision]
  rw [convert.eq_def, hcc]
  exact ⟨rfl, rfl⟩

/-- C6 (amended): for every value argument that is not of number type
(strings, booleans, null, undefined, objects) or is NaN, and any
unit/category arguments, `convert` returns a failure result whose error
message contains the substring "valid number". (Unlike the original
claim, +Infinity and -Infinity are not rejected: the code checks only
`typeof` and `isNaN`.) -/
theorem spec_invalid_value_rejected (now : String) (value : JSValue)
    (fromUnit toUnit category : Option String)
    (h : jsTypeofNumber value = false ∨ value = JSValue.num JSNum.nan) :
    (convert now value fromUnit toUnit category).success = false ∧
    ∃ m, (convert now value fromUnit toUnit category).error = some m ∧
      ∃ pre post, m = pre ++ "valid number" ++ post := by
  have hguard : convertChecked value fromUnit toUnit category =
      Except.error "Value must be a valid number" := by
    rcases h with h | h
    · rw [convertChecked]
      simp [h]
    · subst h
      rw [convertChecked]
      simp [jsTypeofNumber, jsIsNaNValue]
  rw [convert.eq_def, hguard]
  exact ⟨rfl, "Value must be a valid number", rfl, "Value must be a ", "", by decide⟩

/-- Witness for C6 (amended): a string value is rejected. -/
theorem spec_invalid_value_rejected_witness :
    (convert "" (JSValue.str "abc") (some "meter") (some "centimeter")
        (some "length")).success = false :=
  (spec_invalid_value_rejected "" (JSValue.str "abc") (some "meter") (some "centimeter")
    (some "length") (Or.inl rfl)).1

/-- C7 counterexample: the failure message does not name the specific
missing field — the message when only the from-unit is missing is
identical to the message when only the category is missing. -/
theorem spec_missing_field_counterexample :
    (convert "" (JSValue.num (JSNum.fin 1)) none (some "centimeter")
        (some "length")).error =
      (convert "" (JSValue.num (JSNum.fin 1)) (some "meter") (some "centimeter")
        none).error ∧
    (convert "" (JSValue.num (JSNum.fin 1)) none (some "centimeter")
        (some "length")).error =
      some "From unit, to unit, and category are required" := by
  constructor <;> rfl

/-- C7 (amended): when `fromUnit`, `toUnit` or `category` is absent or the
empty string (with a finite numeric value), `convert` fails with the one
fixed message "From unit, to unit, and category are required", which
lists all three field names rather than naming the specific missing
field. -/
theorem spec_missing_field_message (now : String) (q : ℚ)
    (fromUnit toUnit category : Option String)
    (h : fromUnit = none ∨ fromUnit = some "" ∨ toUnit = none ∨ toUnit = some "" ∨
      category = none ∨ category = some "") :
    (convert now (JSValue.num (JSNum.fin q)) fromUnit toUnit category).success = false ∧
    (convert now (JSValue.num (JSNum.fin q)) fromUnit toUnit category).error =
      some "From unit, to unit, and category are required" := by
  have hguard : convertChecked (JSValue.num (JSNum.fin q)) fromUnit toUnit category =
      Except.error "From unit, to unit, and category are required" := by
    rw [convertChecked]
    rcases h with h | h | h | h | h | h <;> subst h <;>
      simp [jsTypeofNumber, jsIsNaNValue, falsyStr]
  rw [convert.eq_def, hguard]
  exact ⟨rfl, rfl⟩

/-- Witness for C7 (amended): an empty from-unit string fails with the
fixed message. -/
theorem spec_missing_field_message_witness :
    (convert "" (JSValue.num (JSNum.fin 1)) (some "") (some "centimeter")
        (some "length")).error =
      some "From unit, to unit, and category are required" :=
  (spec_missing_field_message "" 1 (some "") (some "centimeter") (some "length")
    (Or.inr (Or.inl rfl))).2

/-- C10 counterexample: the claim quantifies over every string `u`, but
for the empty string the falsy-field guard fires first, so
`convert(1, "", "", length)` fails even though the category exists and
the two unit arguments are equal. -/
theorem spec_same_unit_counterexample :
    (convert "" (JSValue.num (JSNum.fin 1)) (some "") (some "")
        (some "length")).success = false := rfl

/-- C10 (amended): the same-unit short-circuit runs after category
resolution but before unit resolution: for every registry category `c`,
every finite `v` and every non-empty string `u` (whether or not `u` is a
unit key of `c`), `convert(v, u, u, c)` succeeds with `v` unchanged;
whereas if `c` is not in the registry the call fails even though the two
unit arguments are equal. -/
theorem spec_same_unit_short_circuit :
    (∀ now c u v, (List.lookup c UNIT_CATEGORIES).isSome = true → u ≠ "" →
      (convert now (JSValue.num (JSNum.fin v)) (some u) (some u) (some c)).success = true ∧
      (convert now (JSValue.num (JSNum.fin v)) (some u) (some u) (some c)).convertedValue =
        some (JSNum.fin v)) ∧
    (∀ now c u v, List.lookup c UNIT_CATEGORIES = none →
      (convert now (JSValue.num (JSNum.fin v)) (some u) (some u) (some c)).success =
        false) := by
  constructor
  · intro now c u v hc hu
    rw [convert.eq_def, convertChecked_same hc hu v]
    exact ⟨rfl, rfl⟩
  · intro now c u v hc
    have hguard : ∃ m, convertChecked (JSValue.num (JSNum.fin v)) (some u) (some u)
        (some c) = Except.error m := by
      by_cases hu : u = ""
      · subst hu
        refine ⟨"From unit, to unit, and category are required", ?_⟩
        rw [convertChecked]
        simp [jsTypeofNumber, jsIsNaNValue, falsyStr]
      · by_cases hcc : c = ""
        · subst hcc
          refine ⟨"From unit, to unit, and category are required", ?_⟩
          rw [convertChecked]
          simp [jsTypeofNumber, jsIsNaNValue, falsyStr]
        · refine ⟨"Unknown category: " ++ c, ?_⟩
          rw [convertChecked_num v u u c hu hu hcc]
          rw [if_pos (by rw [hc]; rfl)]
    obtain ⟨m, hm⟩ := hguard
    rw [convert.eq_def, hm]

/-- Witness for C10 (amended): a bogus unit key short-circuits inside an
existing category, and an unknown category fails. -/
theorem spec_same_unit_short_circuit_witness :
    ((convert "" (JSValue.num (JSNum.fin 7)) (some "bogus") (some "bogus")
        (some "length")).convertedValue = some (JSNum.fin 7)) ∧
    ((convert "" (JSValue.num (JSNum.fin 7)) (some "meter") (some "meter")
        (some "nope")).success = false) :=
  ⟨(spec_same_unit_short_circuit.1 "" "length" "bogus" 7 rfl (by decide)).2,
   spec_same_unit_short_circuit.2 "" "nope" "meter" 7 rfl⟩

/-- C4 counterexample: converting 1 nanometer to light years rounds to 0
at 10 decimals, so the round trip returns 0, which differs from 1 by far
more than the 10-decimal rounding tolerance. -/
theorem spec_round_trip_counterexample :
    convertedValueQ (convert "" (JSValue.num (JSNum.fin (convertedValueQ
        (convert "" (JSValue.num (JSNum.fin 1)) (some "nanometer") (some "lightYear")
          (some "length")))))
        (some "lightYear") (some "nanometer") (some "length")) = 0 ∧
    ¬(|(0 : ℚ) - 1| ≤ 1 / 10 ^ 10) := by
  constructor
  · have h1 := @convertChecked_factors "length" lengthCategory "nanometer" "lightYear"
      ⟨"Nanometer", "nm", 1e-9, "metric"⟩ ⟨"Light Year", "ly", 9.461e15, "astronomical"⟩
      rfl (by decide) rfl rfl (by decide) 1
    have hq1 : roundQ ((1 : ℚ) * 1e-9 / 9.461e15) = 0 := by
      rw [roundQ_eq ((1 : ℚ) * 1e-9 / 9.461e15) 0 (by norm_num [EPSILON])
        (by norm_num [EPSILON])]
      norm_num
    have w1 : (convert "" (JSValue.num (JSNum.fin 1)) (some "nanometer") (some "lightYear")
        (some "length")).convertedValue = some (JSNum.fin ((1 : ℚ) * 1e-9 / 9.461e15
          |> roundQ)) := by
      rw [convert.eq_def, h1]
    rw [convertedValueQ_of _ _ w1, hq1]
    have h2 := @convertChecked_factors "length" lengthCategory "lightYear" "nanometer"
      ⟨"Light Year", "ly", 9.461e15, "astronomical"⟩ ⟨"Nanometer", "nm", 1e-9, "metric"⟩
      rfl (by decide) rfl rfl (by decide) 0
    have hq2 : roundQ ((0 : ℚ) * 9.461e15 / 1e-9) = 0 := by
      rw [roundQ_eq ((0 : ℚ) * 9.461e15 / 1e-9) 0 (by norm_num [EPSILON])
        (by norm_num [EPSILON])]
      norm_num
    have w2 : (convert "" (JSValue.num (JSNum.fin 0)) (some "lightYear") (some "nanometer")
        (some "length")).convertedValue = some (JSNum.fin ((0 : ℚ) * 9.461e15 / 1e-9
          |> roundQ)) := by
      rw [convert.eq_def, h2]
    rw [convertedValueQ_of _ _ w2, hq2]
  · norm_num

/-- C4 (amended): for every non-temperature category and every unit pair
`(a, b)` in it, the round trip `a → b → a` of a finite `v` differs from
`v` by at most `(ε + 10^-10/2) * (1 + factor b / factor a)` — the
10-decimal rounding tolerance scaled by the factor ratio of the pair (for
identity pairs the trip is exact). An absolute `10^-10`-style tolerance
fails for extreme factor ratios, as the counterexample shows. -/
theorem spec_round_trip_bound (now : String) (c : String) (cat : Category)
    (a b : String) (au bu : UnitEntry)
    (hc : List.lookup c UNIT_CATEGORIES = some cat) (hct : c ≠ "temperature")
    (ha : List.lookup a cat.units = some au) (hb : List.lookup b cat.units = some bu)
    (v : ℚ) :
    |convertedValueQ (convert now (JSValue.num (JSNum.fin (convertedValueQ
        (convert now (JSValue.num (JSNum.fin v)) (some a) (some b) (some c)))))
        (some b) (some a) (some c)) - v| ≤
      (EPSILON + 1 / (2 * 10 ^ 10)) * (1 + bu.factor / au.factor) := by
  have hau : (0 : ℚ) < au.factor := unit_factor_pos hc ha
  have hbu : (0 : ℚ) < bu.factor := unit_factor_pos hc hb
  have htau : (0 : ℚ) < EPSILON + 1 / (2 * 10 ^ 10) := by norm_num [EPSILON]
  have hrat : (0 : ℚ) < bu.factor / au.factor := by positivity
  by_cases hab : a = b
  · subst hab
    have hsome : (List.lookup c UNIT_CATEGORIES).isSome = true := by rw [hc]; rfl
    have hne : a ≠ "" := unit_key_ne hc ha
    have w1 : (convert now (JSValue.num (JSNum.fin v)) (some a) (some a)
        (some c)).convertedValue = some (JSNum.fin v) := by
      rw [convert.eq_def, convertChecked_same hsome hne v]
    rw [convertedValueQ_of _ _ w1]
    have w2 : (convert now (JSValue.num (JSNum.fin v)) (some a) (some a)
        (some c)).convertedValue = some (JSNum.fin v) := w1
    rw [convertedValueQ_of _ _ w2, sub_self, abs_zero]
    positivity
  · have h1 := convertChecked_factors hc hct ha hb hab v
    have w1 : (convert now (JSValue.num (JSNum.fin v)) (some a) (some b)
        (some c)).convertedValue =
        some (JSNum.fin (roundQ (v * au.factor / bu.factor))) := by
      rw [convert.eq_def, h1]
    rw [convertedValueQ_of _ _ w1]
    have h2 := convertChecked_factors hc hct hb ha (Ne.symm hab)
      (roundQ (v * au.factor / bu.factor))
    have w2 : (convert now (JSValue.num (JSNum.fin (roundQ (v * au.factor / bu.factor))))
        (some b) (some a) (some c)).convertedValue =
        some (JSNum.fin (roundQ (roundQ (v * au.factor / bu.factor) * bu.factor /
          au.factor))) := by
      rw [convert.eq_def, h2]
    rw [convertedValueQ_of _ _ w2]
    have hb1 : |roundQ (v * au.factor / bu.factor) - v * au.factor / bu.factor| ≤
        EPSILON + 1 / (2 * 10 ^ 10) := roundQ_close _
    have hb2 : |roundQ (roundQ (v * au.factor / bu.factor) * bu.factor / au.factor) -
        roundQ (v * au.factor / bu.factor) * bu.factor / au.factor| ≤
        EPSILON + 1 / (2 * 10 ^ 10) := roundQ_close _
    have key : roundQ (roundQ (v * au.factor / bu.factor) * bu.factor / au.factor) - v =
        (roundQ (roundQ (v * au.factor / bu.factor) * bu.factor / au.factor) -
          roundQ (v * au.factor / bu.factor) * bu.factor / au.factor) +
        (roundQ (v * au.factor / bu.factor) - v * au.factor / bu.factor) *
          (bu.factor / au.factor) := by
      field_simp
      ring
    rw [key]
    have habs : |(roundQ (roundQ (v * au.factor / bu.factor) * bu.factor / au.factor) -
          roundQ (v * au.factor / bu.factor) * bu.factor / au.factor) +
        (roundQ (v * au.factor / bu.factor) - v * au.factor / bu.factor) *
          (bu.factor / au.factor)| ≤
        (EPSILON + 1 / (2 * 10 ^ 10)) + (EPSILON + 1 / (2 * 10 ^ 10)) *
          (bu.factor / au.factor) := by
      refine (abs_add _ _).trans ?_
      have hmul : |(roundQ (v * au.factor / bu.factor) - v * au.factor / bu.factor) *
          (bu.factor / au.factor)| =
          |roundQ (v * au.factor / bu.factor) - v * au.factor / bu.factor| *
            (bu.factor / au.factor) := by
        rw [abs_mul, abs_of_pos hrat]
      rw [hmul]
      exact add_le_add hb2 (mul_le_mul_of_nonneg_right hb1 hrat.le)
    exact habs.trans (le_of_eq (by ring))

/-- Witness for C4 (amended): the meter/centimeter round trip of 1 meets
the scaled bound. -/
theorem spec_round_trip_bound_witness :
    |convertedValueQ (convert "" (JSValue.num (JSNum.fin (convertedValueQ
        (convert "" (JSValue.num (JSNum.fin 1)) (some "meter") (some "centimeter")
          (some "length")))))
        (some "centimeter") (some "meter") (some "length")) - 1| ≤
      (EPSILON + 1 / (2 * 10 ^ 10)) * (1 + (0.01 : ℚ) / 1) :=
  spec_round_trip_bound "" "length" lengthCategory "meter" "centimeter"
    ⟨"Meter", "m", 1, "metric"⟩ ⟨"Centimeter", "cm", 0.01, "metric"⟩
    rfl (by decide) rfl rfl 1

end UnitConverterHub
